import Mathlib

/-! bootcfg/client: endpoint-ordered connection establishment

A shallow embedding of `bootcfg/client/client.go`.

* Go's `error` interface is `Option GoError`; `none` is Go's `nil`.
* Go pointers (`*tls.Config`, `*grpc.ClientConn`, `*Client`) are `Option`s; `none` is `nil`.
* `grpc.Dial` is an effect of the environment.  It is embedded as an oracle that is handed
  the whole history of earlier dials, and every call is appended to a dial log that is
  threaded through the functions, so that the order and number of dial attempts of a run
  can be stated.
* The `*Config` argument of `New` is taken to be non-nil.
-/

set_option autoImplicit false

namespace client

/-! ## Values of the surrounding libraries -/

/-- A non-nil Go `error` value.  `errorsNew` is a value made by `errors.New` in this
package, `transport` is an error reported by the gRPC transport library. -/
inductive GoError where
  | errorsNew (text : String)
  | transport (detail : String)
  deriving DecidableEq, Repr

/-- The object a `*tls.Config` points to; its content belongs to `crypto/tls`. -/
structure tls.Config where
  id : Nat
  deriving DecidableEq, Repr

/-- The value of `credentials.NewTLS(c)`. -/
structure credentials.TransportCredentials where
  config : tls.Config
  deriving DecidableEq, Repr

/-- The library call `credentials.NewTLS`. -/
def credentials.NewTLS (c : tls.Config) : credentials.TransportCredentials :=
  { config := c }

/-- A `grpc.DialOption`; the client only ever builds `grpc.WithTransportCredentials`. -/
inductive grpc.DialOption where
  | WithTransportCredentials (creds : credentials.TransportCredentials)
  deriving DecidableEq, Repr

/-- The object a non-nil `*grpc.ClientConn` points to. -/
structure grpc.ClientConn where
  id : Nat
  deriving DecidableEq, Repr

/-- The pair `(conn, err)` that a call of `grpc.Dial` returns. -/
structure grpc.DialResult where
  conn : Option grpc.ClientConn
  err : Option GoError
  deriving DecidableEq, Repr

/-- The endpoints handed to `grpc.Dial` so far, oldest first. -/
abbrev DialLog := List String

/-- The environment behind `grpc.Dial`: what a dial of `endpoint` with `opts` returns when
the dials in the log were made before it. -/
abbrev DialOracle := DialLog → String → List grpc.DialOption → grpc.DialResult

/-- The call `grpc.Dial(endpoint, opts...)`: the environment answers and the call is logged. -/
def grpc.Dial (oracle : DialOracle) (log : DialLog) (endpoint : String)
    (opts : List grpc.DialOption) : grpc.DialResult × DialLog :=
  (oracle log endpoint opts, log ++ [endpoint])

/-- The environment behind `(*grpc.ClientConn).Close`: the error (or nil) that closing the
receiver reports.  The receiver is a pointer, so the method can be called on nil. -/
abbrev CloseOracle := Option grpc.ClientConn → Option GoError

/-- The method call `cc.Close()` of the transport library. -/
def grpc.ClientConn.Close (transport : CloseOracle) (cc : Option grpc.ClientConn) :
    Option GoError :=
  transport cc

/-- Modelled from the spec: the generated stub type `rpcpb.GroupsClient` is not part of the
sources at hand; the spec describes a stub as a thin view over the shared connection. -/
structure rpcpb.GroupsClient where
  cc : Option grpc.ClientConn
  deriving DecidableEq, Repr

/-- Modelled from the spec: the generated stub type `rpcpb.ProfilesClient`, a thin view over
the connection it was constructed with. -/
structure rpcpb.ProfilesClient where
  cc : Option grpc.ClientConn
  deriving DecidableEq, Repr

/-- Modelled from the spec: the generated stub type `rpcpb.IgnitionClient`, a thin view over
the connection it was constructed with. -/
structure rpcpb.IgnitionClient where
  cc : Option grpc.ClientConn
  deriving DecidableEq, Repr

/-- Modelled from the spec: the generated constructor `rpcpb.NewGroupsClient`. -/
def rpcpb.NewGroupsClient (cc : Option grpc.ClientConn) : rpcpb.GroupsClient :=
  { cc := cc }

/-- Modelled from the spec: the generated constructor `rpcpb.NewProfilesClient`. -/
def rpcpb.NewProfilesClient (cc : Option grpc.ClientConn) : rpcpb.ProfilesClient :=
  { cc := cc }

/-- Modelled from the spec: the generated constructor `rpcpb.NewIgnitionClient`. -/
def rpcpb.NewIgnitionClient (cc : Option grpc.ClientConn) : rpcpb.IgnitionClient :=
  { cc := cc }

/-! ## The package `client` -/

/-- The package variable `errNoEndpoints`. -/
def errNoEndpoints : GoError := GoError.errorsNew "client: No endpoints provided"

/-- The package variable `errNoTLSConfig`. -/
def errNoTLSConfig : GoError := GoError.errorsNew "client: No TLS Config provided"

/-- The struct `Config`: the endpoint URLs and the (possibly nil) TLS credentials. -/
structure Config where
  Endpoints : List String
  TLS : Option tls.Config
  deriving DecidableEq, Repr

/-- The struct `Client`. -/
structure Client where
  Groups : rpcpb.GroupsClient
  Profiles : rpcpb.ProfilesClient
  Ignition : rpcpb.IgnitionClient
  conn : Option grpc.ClientConn
  deriving DecidableEq, Repr

/-- The `for _, endpoint := range config.Endpoints` loop of `dialEndpoints`, over the
endpoints still to visit.  `err` is the variable declared by `var err error` before the
loop.  The statement `conn, err := grpc.Dial(endpoint, opts...)` in the body declares two
new variables in the scope of the body, so the loop never assigns to the outer `err`; the
`return nil, err` after the loop reads the outer one. -/
def dialEndpoints.loop (oracle : DialOracle) (opts : List grpc.DialOption)
    (err : Option GoError) :
    List String → DialLog → (Option grpc.ClientConn × Option GoError) × DialLog
  | [], log => ((none, err), log)
  | endpoint :: rest, log =>
    let dialed := grpc.Dial oracle log endpoint opts
    match dialed.1.err with
    | none => ((dialed.1.conn, none), dialed.2)
    | some _ => dialEndpoints.loop oracle opts err rest dialed.2

/-- The function `dialEndpoints`. -/
def dialEndpoints (oracle : DialOracle) (config : Config) (log : DialLog) :
    (Option grpc.ClientConn × Option GoError) × DialLog :=
  match config.TLS with
  | some tlsConfig =>
    let creds := credentials.NewTLS tlsConfig
    let opts : List grpc.DialOption := [] ++ [grpc.DialOption.WithTransportCredentials creds]
    let err : Option GoError := none
    dialEndpoints.loop oracle opts err config.Endpoints log
  | none => ((none, some errNoTLSConfig), log)

/-- The function `newClient`. -/
def newClient (oracle : DialOracle) (config : Config) (log : DialLog) :
    (Option Client × Option GoError) × DialLog :=
  let dialed := dialEndpoints oracle config log
  let conn := dialed.1.1
  match dialed.1.2 with
  | some err => ((none, some err), dialed.2)
  | none =>
    let c : Client :=
      { conn := conn
        Groups := rpcpb.NewGroupsClient conn
        Profiles := rpcpb.NewProfilesClient conn
        Ignition := rpcpb.NewIgnitionClient conn }
    ((some c, none), dialed.2)

/-- The function `New`. -/
def New (oracle : DialOracle) (config : Config) (log : DialLog) :
    (Option Client × Option GoError) × DialLog :=
  if config.Endpoints.length = 0 then
    ((none, some errNoEndpoints), log)
  else
    newClient oracle config log

/-- The method `(*Client).Close`. -/
def Client.Close (transport : CloseOracle) (c : Client) : Option GoError :=
  grpc.ClientConn.Close transport c.conn

/-! ## Vocabulary of the statements -/

/-- The dial options that `dialEndpoints` builds from a non-nil TLS value. -/
def tlsOpts (t : tls.Config) : List grpc.DialOption :=
  [grpc.DialOption.WithTransportCredentials (credentials.NewTLS t)]

/-- What the environment answers to the dial of position `i` of the endpoint list `es` in a
run that started with the log `log` and has dialed the positions before `i`. -/
def nthDial (oracle : DialOracle) (opts : List grpc.DialOption) (log : DialLog)
    (es : List String) (i : Nat) : grpc.DialResult :=
  oracle (log ++ es.take i) (es.getD i "") opts

/-- The client that `newClient` builds around the connection `conn`. -/
def clientOver (conn : Option grpc.ClientConn) : Client :=
  { conn := conn
    Groups := rpcpb.NewGroupsClient conn
    Profiles := rpcpb.NewProfilesClient conn
    Ignition := rpcpb.NewIgnitionClient conn }

/-- An environment in which every dial is refused. -/
def refuseAll : DialOracle :=
  fun _ _ _ => { conn := none, err := some (GoError.transport "connection refused") }

/-- An environment in which the dial made after exactly `k` earlier dials is answered with
the connection numbered `id`, and every other dial is refused. -/
def acceptAt (k : Nat) (id : Nat) : DialOracle :=
  fun log _ _ =>
    if log.length = k then { conn := some { id := id }, err := none }
    else { conn := none, err := some (GoError.transport "connection refused") }

/-- An environment in which every dial is refused, with the dialed endpoint as the detail. -/
def refuseNaming : DialOracle :=
  fun _ endpoint _ => { conn := none, err := some (GoError.transport endpoint) }

/-! ## The loop -/

theorem loop_nil (oracle : DialOracle) (opts : List grpc.DialOption) (err : Option GoError)
    (log : DialLog) :
    dialEndpoints.loop oracle opts err [] log = ((none, err), log) := rfl

theorem loop_cons_ok (oracle : DialOracle) (opts : List grpc.DialOption)
    (err : Option GoError) (e : String) (rest : List String) (log : DialLog)
    (h : (oracle log e opts).err = none) :
    dialEndpoints.loop oracle opts err (e :: rest) log
      = (((oracle log e opts).conn, none), log ++ [e]) := by
  simp [dialEndpoints.loop, grpc.Dial, h]

theorem loop_cons_fail (oracle : DialOracle) (opts : List grpc.DialOption)
    (err : Option GoError) (e : String) (rest : List String) (log : DialLog)
    (h : (oracle log e opts).err ≠ none) :
    dialEndpoints.loop oracle opts err (e :: rest) log
      = dialEndpoints.loop oracle opts err rest (log ++ [e]) := by
  obtain ⟨x, hx⟩ := Option.ne_none_iff_exists'.mp h
  simp [dialEndpoints.loop, grpc.Dial, hx]

theorem nthDial_zero (oracle : DialOracle) (opts : List grpc.DialOption) (log : DialLog)
    (e : String) (rest : List String) :
    nthDial oracle opts log (e :: rest) 0 = oracle log e opts := by
  simp [nthDial]

theorem nthDial_succ (oracle : DialOracle) (opts : List grpc.DialOption) (log : DialLog)
    (e : String) (rest : List String) (i : Nat) :
    nthDial oracle opts log (e :: rest) (i + 1) = nthDial oracle opts (log ++ [e]) rest i := by
  simp [nthDial]

/-- When every dial of the run fails, the loop visits the whole list and falls through to
the `return nil, err` after it. -/
theorem loop_all_fail (oracle : DialOracle) (opts : List grpc.DialOption)
    (err : Option GoError) :
    ∀ (es : List String) (log : DialLog),
      (∀ i, i < es.length → (nthDial oracle opts log es i).err ≠ none) →
      dialEndpoints.loop oracle opts err es log = ((none, err), log ++ es) := by
  intro es
  induction es with
  | nil => intro log _; simp [dialEndpoints.loop]
  | cons e rest ih =>
    intro log h
    have h0 : (oracle log e opts).err ≠ none := by
      have := h 0 (by simp)
      rwa [nthDial_zero] at this
    rw [loop_cons_fail oracle opts err e rest log h0, ih (log ++ [e])]
    · simp
    · intro i hi
      have := h (i + 1) (by simpa using hi)
      rwa [nthDial_succ] at this

/-- When position `k` is the first whose dial succeeds, the loop returns from inside the
body with the connection of that dial, after dialing exactly the positions up to `k`. -/
theorem loop_first_ok (oracle : DialOracle) (opts : List grpc.DialOption)
    (err : Option GoError) :
    ∀ (es : List String) (log : DialLog) (k : Nat), k < es.length →
      (∀ i, i < k → (nthDial oracle opts log es i).err ≠ none) →
      (nthDial oracle opts log es k).err = none →
      dialEndpoints.loop oracle opts err es log
        = (((nthDial oracle opts log es k).conn, none), log ++ es.take (k + 1)) := by
  intro es
  induction es with
  | nil => intro log k hk; simp at hk
  | cons e rest ih =>
    intro log k hk hfail hok
    cases k with
    | zero =>
      rw [nthDial_zero] at hok
      rw [loop_cons_ok oracle opts err e rest log hok, nthDial_zero]
      simp
    | succ j =>
      have h0 : (oracle log e opts).err ≠ none := by
        have := hfail 0 (by omega)
        rwa [nthDial_zero] at this
      rw [nthDial_succ] at hok
      rw [loop_cons_fail oracle opts err e rest log h0,
        ih (log ++ [e]) j (by simpa using hk) _ hok, nthDial_succ]
      · simp
      · intro i hi
        have := hfail (i + 1) (by omega)
        rwa [nthDial_succ] at this

/-- Every run either has all its dials fail or has a first position whose dial succeeds. -/
theorem first_ok_or_all_fail (oracle : DialOracle) (opts : List grpc.DialOption)
    (log : DialLog) (es : List String) :
    (∀ i, i < es.length → (nthDial oracle opts log es i).err ≠ none) ∨
    ∃ k, k < es.length ∧ (∀ i, i < k → (nthDial oracle opts log es i).err ≠ none) ∧
      (nthDial oracle opts log es k).err = none := by
  classical
  by_cases h : ∃ k, k < es.length ∧ (nthDial oracle opts log es k).err = none
  · right
    refine ⟨Nat.find h, (Nat.find_spec h).1, ?_, (Nat.find_spec h).2⟩
    intro i hi hnone
    exact Nat.find_min h hi ⟨lt_trans hi (Nat.find_spec h).1, hnone⟩
  · left
    intro i hi hnone
    exact h ⟨i, hi, hnone⟩

theorem dialEndpoints_tls (oracle : DialOracle) (es : List String) (t : tls.Config)
    (log : DialLog) :
    dialEndpoints oracle { Endpoints := es, TLS := some t } log
      = dialEndpoints.loop oracle (tlsOpts t) none es log := by
  simp [dialEndpoints, tlsOpts]

theorem New_cons (oracle : DialOracle) (e : String) (es : List String)
    (tlsConfig : Option tls.Config) (log : DialLog) :
    New oracle { Endpoints := e :: es, TLS := tlsConfig } log
      = newClient oracle { Endpoints := e :: es, TLS := tlsConfig } log := by
  simp [New]

theorem New_no_endpoints_aux (oracle : DialOracle) (tlsConfig : Option tls.Config)
    (log : DialLog) :
    New oracle { Endpoints := [], TLS := tlsConfig } log
      = ((none, some errNoEndpoints), log) := by
  simp [New]

theorem New_of_ne_nil (oracle : DialOracle) (config : Config) (log : DialLog)
    (h : config.Endpoints ≠ []) :
    New oracle config log = newClient oracle config log := by
  have : config.Endpoints.length ≠ 0 := by
    simpa [List.length_eq_zero] using h
  simp [New, this]

theorem newClient_of_dial (oracle : DialOracle) (config : Config) (log : DialLog)
    (conn : Option grpc.ClientConn) (out : DialLog)
    (h : dialEndpoints oracle config log = ((conn, none), out)) :
    newClient oracle config log = ((some (clientOver conn), none), out) := by
  simp [newClient, h, clientOver]

theorem newClient_of_dial_err (oracle : DialOracle) (config : Config) (log : DialLog)
    (conn : Option grpc.ClientConn) (e : GoError) (out : DialLog)
    (h : dialEndpoints oracle config log = ((conn, some e), out)) :
    newClient oracle config log = ((none, some e), out) := by
  simp [newClient, h]

/-- With the outer `err` still nil, the loop never returns an error. -/
theorem loop_err_none (oracle : DialOracle) (opts : List grpc.DialOption)
    (es : List String) (log : DialLog) :
    ∃ conn out, dialEndpoints.loop oracle opts none es log = ((conn, none), out) := by
  rcases first_ok_or_all_fail oracle opts log es with h | ⟨k, hk, hfail, hok⟩
  · exact ⟨none, log ++ es, loop_all_fail oracle opts none es log h⟩
  · exact ⟨_, _, loop_first_ok oracle opts none es log k hk hfail hok⟩

/-- A client that `newClient` returns was built by the struct literal of `newClient`. -/
theorem newClient_client (oracle : DialOracle) (config : Config) (log : DialLog)
    (c : Client) (h : (newClient oracle config log).1.1 = some c) :
    c = clientOver c.conn := by
  cases hd : (dialEndpoints oracle config log).1.2 with
  | some e => simp [newClient, hd] at h
  | none =>
    simp only [newClient, hd, Option.some.injEq] at h
    subst h
    rfl

/-- New with a non-nil TLS value and a first successful dial at position `k`. -/
theorem New_tls_first_ok (oracle : DialOracle) (es : List String) (t : tls.Config)
    (log : DialLog) (k : Nat) (hk : k < es.length)
    (hfail : ∀ i, i < k → (nthDial oracle (tlsOpts t) log es i).err ≠ none)
    (hok : (nthDial oracle (tlsOpts t) log es k).err = none) :
    New oracle { Endpoints := es, TLS := some t } log
      = ((some (clientOver (nthDial oracle (tlsOpts t) log es k).conn), none),
          log ++ es.take (k + 1)) := by
  have hne : ({ Endpoints := es, TLS := some t } : Config).Endpoints ≠ [] := by
    intro h
    simp only at h
    subst h
    simp at hk
  rw [New_of_ne_nil oracle _ log hne]
  apply newClient_of_dial
  rw [dialEndpoints_tls]
  exact loop_first_ok oracle (tlsOpts t) none es log k hk hfail hok

/-- New with a non-nil TLS value, a non-empty endpoint list and no successful dial. -/
theorem New_tls_all_fail (oracle : DialOracle) (e : String) (es : List String)
    (t : tls.Config) (log : DialLog)
    (hfail : ∀ i, i < (e :: es).length →
      (nthDial oracle (tlsOpts t) log (e :: es) i).err ≠ none) :
    New oracle { Endpoints := e :: es, TLS := some t } log
      = ((some (clientOver none), none), log ++ e :: es) := by
  rw [New_cons]
  apply newClient_of_dial
  rw [dialEndpoints_tls]
  exact loop_all_fail oracle (tlsOpts t) none (e :: es) log hfail

/-! ## The claims -/

/-- C1, evaluated on the code: with the endpoints `a:1` and `b:2`, a non-nil TLS value and
both dials refused, the dial of the last endpoint reports the failure `b:2`, yet `New`
returns a nil error (and a client around a nil connection) after dialing both endpoints. -/
theorem New_all_fail_drops_last_error :
    (nthDial refuseNaming (tlsOpts { id := 0 }) [] ["a:1", "b:2"] 1).err
        = some (GoError.transport "b:2") ∧
      New refuseNaming { Endpoints := ["a:1", "b:2"], TLS := some { id := 0 } } []
        = ((some (clientOver none), none), ["a:1", "b:2"]) := by
  decide

/-- C2: with a non-nil TLS value, when the dials of the positions before `k` fail and the
dial of position `k` succeeds with the connection `c`, `New` returns a nil error and the
client built over `c`, whose `conn` is `c`, and the dial log has grown by exactly the
endpoints of the positions `0..k`: nothing after position `k` is dialed. -/
theorem New_first_success (oracle : DialOracle) (es : List String) (t : tls.Config)
    (log : DialLog) (k : Nat) (c : grpc.ClientConn) (hk : k < es.length)
    (hfail : ∀ i, i < k → (nthDial oracle (tlsOpts t) log es i).err ≠ none)
    (hok : nthDial oracle (tlsOpts t) log es k = { conn := some c, err := none }) :
    New oracle { Endpoints := es, TLS := some t } log
        = ((some (clientOver (some c)), none), log ++ es.take (k + 1)) ∧
      (clientOver (some c)).conn = some c := by
  have herr : (nthDial oracle (tlsOpts t) log es k).err = none := by rw [hok]
  have hconn : (nthDial oracle (tlsOpts t) log es k).conn = some c := by rw [hok]
  refine ⟨?_, rfl⟩
  rw [New_tls_first_ok oracle es t log k hk hfail herr, hconn]

/-- C2 at a concrete input: four endpoints, the first two refused, the third accepted with
connection 7; the fourth is never dialed. -/
theorem New_first_success_witness :
    (∀ i, i < 2 →
        (nthDial (acceptAt 2 7) (tlsOpts { id := 0 }) [] ["a:1", "b:2", "c:3", "d:4"] i).err
          ≠ none) ∧
      nthDial (acceptAt 2 7) (tlsOpts { id := 0 }) [] ["a:1", "b:2", "c:3", "d:4"] 2
        = { conn := some { id := 7 }, err := none } ∧
      New (acceptAt 2 7) { Endpoints := ["a:1", "b:2", "c:3", "d:4"], TLS := some { id := 0 } } []
        = ((some (clientOver (some { id := 7 })), none),
            [] ++ ["a:1", "b:2", "c:3", "d:4"].take (2 + 1)) ∧
      (clientOver (some { id := 7 })).conn = some { id := 7 } :=
  ⟨by decide, by decide,
    New_first_success (acceptAt 2 7) ["a:1", "b:2", "c:3", "d:4"] { id := 0 } [] 2 { id := 7 }
      (by decide) (by decide) (by decide)⟩

/-- C3, evaluated on the code: with one endpoint whose dial is refused and a non-nil TLS
value, `New` returns a non-nil client together with a nil error, and the `conn` of that
client is nil: no dial has produced it. -/
theorem New_all_fail_returns_client_without_conn :
    (nthDial refuseAll (tlsOpts { id := 0 }) [] ["a:1"] 0).err ≠ none ∧
      ∃ c : Client,
        New refuseAll { Endpoints := ["a:1"], TLS := some { id := 0 } } []
          = ((some c, none), ["a:1"]) ∧ c.conn = none :=
  ⟨by decide, clientOver none, by decide, rfl⟩

/-- C4: for an empty endpoint list, whatever the TLS value and the environment, `New`
returns a nil client and `errNoEndpoints`, and the dial log is unchanged: no dial is made. -/
theorem New_no_endpoints (oracle : DialOracle) (tlsConfig : Option tls.Config)
    (log : DialLog) :
    New oracle { Endpoints := [], TLS := tlsConfig } log
      = ((none, some errNoEndpoints), log) := by
  simp [New]

/-- C5 as stated fails: with a nil TLS value and the empty endpoint list `New` returns
`errNoEndpoints`, which is not `errNoTLSConfig`. -/
theorem New_nil_tls_empty_list :
    New refuseAll { Endpoints := [], TLS := none } []
        = ((none, some errNoEndpoints), []) ∧
      errNoEndpoints ≠ errNoTLSConfig := by
  decide

/-- C5, amended: for a nil TLS value and a non-empty endpoint list, whatever its contents
and the environment, `New` returns a nil client and `errNoTLSConfig`, and the dial log is
unchanged: no dial is made. -/
theorem New_nil_tls_nonempty (oracle : DialOracle) (e : String) (es : List String)
    (log : DialLog) :
    New oracle { Endpoints := e :: es, TLS := none } log
      = ((none, some errNoTLSConfig), log) := by
  rw [New_cons]
  exact newClient_of_dial_err oracle _ log none errNoTLSConfig log rfl

/-- C6: with a non-nil TLS value, two environments that agree, position by position, on
whether the dial succeeds select the same position: either there is one position `k` at
which both dials succeed and each run of `New` returns the client over the connection its
own dial of position `k` produced, having dialed exactly the positions `0..k`; or every
dial fails in both environments, no position is selected, and the two runs return the
same result. -/
theorem New_selection_deterministic (o1 o2 : DialOracle) (es : List String)
    (t : tls.Config) (log : DialLog)
    (hagree : ∀ i, i < es.length →
      ((nthDial o1 (tlsOpts t) log es i).err = none ↔
        (nthDial o2 (tlsOpts t) log es i).err = none)) :
    (∃ k, k < es.length ∧
        (nthDial o1 (tlsOpts t) log es k).err = none ∧
        (nthDial o2 (tlsOpts t) log es k).err = none ∧
        New o1 { Endpoints := es, TLS := some t } log
          = ((some (clientOver (nthDial o1 (tlsOpts t) log es k).conn), none),
              log ++ es.take (k + 1)) ∧
        New o2 { Endpoints := es, TLS := some t } log
          = ((some (clientOver (nthDial o2 (tlsOpts t) log es k).conn), none),
              log ++ es.take (k + 1))) ∨
      ((∀ i, i < es.length →
          (nthDial o1 (tlsOpts t) log es i).err ≠ none ∧
          (nthDial o2 (tlsOpts t) log es i).err ≠ none) ∧
        New o1 { Endpoints := es, TLS := some t } log
          = New o2 { Endpoints := es, TLS := some t } log) := by
  rcases first_ok_or_all_fail o1 (tlsOpts t) log es with h | ⟨k, hk, hfail, hok⟩
  · right
    have h2 : ∀ i, i < es.length → (nthDial o2 (tlsOpts t) log es i).err ≠ none :=
      fun i hi hnone => h i hi ((hagree i hi).mpr hnone)
    refine ⟨fun i hi => ⟨h i hi, h2 i hi⟩, ?_⟩
    cases es with
    | nil => simp [New]
    | cons e rest =>
      rw [New_tls_all_fail o1 e rest t log h, New_tls_all_fail o2 e rest t log h2]
  · left
    have hfail2 : ∀ i, i < k → (nthDial o2 (tlsOpts t) log es i).err ≠ none :=
      fun i hi hnone => hfail i hi ((hagree i (lt_trans hi hk)).mpr hnone)
    have hok2 : (nthDial o2 (tlsOpts t) log es k).err = none := (hagree k hk).mp hok
    exact ⟨k, hk, hok, hok2, New_tls_first_ok o1 es t log k hk hfail hok,
      New_tls_first_ok o2 es t log k hk hfail2 hok2⟩

/-- C6 at a concrete input: two environments that refuse the first dial and accept the
second, one with connection 7 and the other with connection 9. -/
theorem New_selection_deterministic_witness :
    (∀ i, i < ["a:1", "b:2", "c:3"].length →
        ((nthDial (acceptAt 1 7) (tlsOpts { id := 0 }) [] ["a:1", "b:2", "c:3"] i).err = none ↔
          (nthDial (acceptAt 1 9) (tlsOpts { id := 0 }) [] ["a:1", "b:2", "c:3"] i).err
            = none)) ∧
    ((∃ k, k < ["a:1", "b:2", "c:3"].length ∧
        (nthDial (acceptAt 1 7) (tlsOpts { id := 0 }) [] ["a:1", "b:2", "c:3"] k).err = none ∧
        (nthDial (acceptAt 1 9) (tlsOpts { id := 0 }) [] ["a:1", "b:2", "c:3"] k).err = none ∧
        New (acceptAt 1 7) { Endpoints := ["a:1", "b:2", "c:3"], TLS := some { id := 0 } } []
          = ((some (clientOver
                (nthDial (acceptAt 1 7) (tlsOpts { id := 0 }) [] ["a:1", "b:2", "c:3"] k).conn),
              none),
              [] ++ ["a:1", "b:2", "c:3"].take (k + 1)) ∧
        New (acceptAt 1 9) { Endpoints := ["a:1", "b:2", "c:3"], TLS := some { id := 0 } } []
          = ((some (clientOver
                (nthDial (acceptAt 1 9) (tlsOpts { id := 0 }) [] ["a:1", "b:2", "c:3"] k).conn),
              none),
              [] ++ ["a:1", "b:2", "c:3"].take (k + 1))) ∨
      ((∀ i, i < ["a:1", "b:2", "c:3"].length →
          (nthDial (acceptAt 1 7) (tlsOpts { id := 0 }) [] ["a:1", "b:2", "c:3"] i).err ≠ none ∧
          (nthDial (acceptAt 1 9) (tlsOpts { id := 0 }) [] ["a:1", "b:2", "c:3"] i).err
            ≠ none) ∧
        New (acceptAt 1 7) { Endpoints := ["a:1", "b:2", "c:3"], TLS := some { id := 0 } } []
          = New (acceptAt 1 9)
              { Endpoints := ["a:1", "b:2", "c:3"], TLS := some { id := 0 } } [])) :=
  ⟨by decide,
    New_selection_deterministic (acceptAt 1 7) (acceptAt 1 9) ["a:1", "b:2", "c:3"]
      { id := 0 } [] (by decide)⟩

/-- C7, evaluated on the code: with one endpoint whose dial is refused and a non-nil TLS
value, `New` returns a client whose `conn` is nil, so `Close` on that client calls the
transport's `Close` on a nil connection: there is no underlying connection to close. -/
theorem Close_after_all_fail_closes_nil :
    ∃ c : Client,
      (New refuseAll { Endpoints := ["a:1"], TLS := some { id := 0 } } []).1 = (some c, none) ∧
        c.conn = none ∧
        ∀ transport : CloseOracle, Client.Close transport c = transport none :=
  ⟨clientOver none, by decide, rfl, fun _ => rfl⟩

/-- C8: for every client that `New` returns, the three stubs are the ones constructed over
the client's own `conn`, the connection each stub views is that `conn`, and `Close` closes
that same `conn`. -/
theorem New_stubs_share_conn (oracle : DialOracle) (config : Config) (log : DialLog)
    (c : Client) (err : Option GoError) (out : DialLog)
    (h : New oracle config log = ((some c, err), out)) :
    c.Groups = rpcpb.NewGroupsClient c.conn ∧
      c.Profiles = rpcpb.NewProfilesClient c.conn ∧
      c.Ignition = rpcpb.NewIgnitionClient c.conn ∧
      c.Groups.cc = c.conn ∧ c.Profiles.cc = c.conn ∧ c.Ignition.cc = c.conn ∧
      ∀ transport : CloseOracle,
        Client.Close transport c = grpc.ClientConn.Close transport c.conn := by
  have hc : c = clientOver c.conn := by
    by_cases hes : config.Endpoints = []
    · simp [New, hes] at h
    · rw [New_of_ne_nil oracle config log hes] at h
      exact newClient_client oracle config log c (by rw [h])
  refine ⟨?_, ?_, ?_, ?_, ?_, ?_, fun _ => rfl⟩
  · exact congrArg Client.Groups hc
  · exact congrArg Client.Profiles hc
  · exact congrArg Client.Ignition hc
  · exact congrArg (fun x => x.Groups.cc) hc
  · exact congrArg (fun x => x.Profiles.cc) hc
  · exact congrArg (fun x => x.Ignition.cc) hc

/-- C8 at a concrete input: one endpoint, accepted with connection 7. -/
theorem New_stubs_share_conn_witness :
    New (acceptAt 0 7) { Endpoints := ["a:1"], TLS := some { id := 0 } } []
        = ((some (clientOver (some { id := 7 })), none), ["a:1"]) ∧
      (clientOver (some { id := 7 })).Groups
        = rpcpb.NewGroupsClient (clientOver (some { id := 7 })).conn ∧
      (clientOver (some { id := 7 })).Profiles
        = rpcpb.NewProfilesClient (clientOver (some { id := 7 })).conn ∧
      (clientOver (some { id := 7 })).Ignition
        = rpcpb.NewIgnitionClient (clientOver (some { id := 7 })).conn ∧
      (clientOver (some { id := 7 })).Groups.cc = (clientOver (some { id := 7 })).conn ∧
      (clientOver (some { id := 7 })).Profiles.cc = (clientOver (some { id := 7 })).conn ∧
      (clientOver (some { id := 7 })).Ignition.cc = (clientOver (some { id := 7 })).conn ∧
      ∀ transport : CloseOracle,
        Client.Close transport (clientOver (some { id := 7 }))
          = grpc.ClientConn.Close transport (clientOver (some { id := 7 })).conn :=
  ⟨by decide,
    New_stubs_share_conn (acceptAt 0 7) { Endpoints := ["a:1"], TLS := some { id := 0 } } []
      (clientOver (some { id := 7 })) none ["a:1"] (by decide)⟩

/-- C9: with a non-nil TLS value, the endpoints that `dialEndpoints` dials are, in order,
the first `n` positions of `config.Endpoints`, each once: the dial log grows by exactly
that initial segment.  Every position before the last one dialed has failed, a run that
stops before the end of the list stops at a dial that succeeded, and when no dial
succeeds the whole list has been dialed. -/
theorem dialEndpoints_attempts (oracle : DialOracle) (es : List String) (t : tls.Config)
    (log : DialLog) :
    ∃ n, n ≤ es.length ∧
      (dialEndpoints oracle { Endpoints := es, TLS := some t } log).2 = log ++ es.take n ∧
      (∀ i, i + 1 < n → (nthDial oracle (tlsOpts t) log es i).err ≠ none) ∧
      (n < es.length →
        0 < n ∧ (nthDial oracle (tlsOpts t) log es (n - 1)).err = none) ∧
      ((∀ i, i < es.length → (nthDial oracle (tlsOpts t) log es i).err ≠ none) →
        n = es.length) := by
  rw [dialEndpoints_tls]
  rcases first_ok_or_all_fail oracle (tlsOpts t) log es with h | ⟨k, hk, hfail, hok⟩
  · refine ⟨es.length, le_refl _, ?_, ?_, ?_, fun _ => rfl⟩
    · rw [loop_all_fail oracle (tlsOpts t) none es log h, List.take_length]
    · intro i hi
      exact h i (by omega)
    · intro hlt
      exact absurd hlt (lt_irrefl _)
  · refine ⟨k + 1, hk, ?_, ?_, ?_, ?_⟩
    · rw [loop_first_ok oracle (tlsOpts t) none es log k hk hfail hok]
    · intro i hi
      exact hfail i (by omega)
    · intro _
      exact ⟨Nat.succ_pos k, by simpa using hok⟩
    · intro hall
      exact absurd hok (hall k hk)

/-- C10: the error that `New` returns is nil, `errNoEndpoints` or `errNoTLSConfig`, and for
a non-empty endpoint list and a non-nil TLS value it is nil whatever the environment
answers, also when every dial fails: a dial failure is never returned. -/
theorem New_error_is_sentinel_or_nil (oracle : DialOracle) (config : Config)
    (log : DialLog) :
    ((New oracle config log).1.2 = none ∨
        (New oracle config log).1.2 = some errNoEndpoints ∨
        (New oracle config log).1.2 = some errNoTLSConfig) ∧
      (config.Endpoints ≠ [] → config.TLS ≠ none → (New oracle config log).1.2 = none) := by
  obtain ⟨es, tlsConfig⟩ := config
  cases es with
  | nil =>
    refine ⟨Or.inr (Or.inl ?_), fun h => absurd rfl h⟩
    rw [New_no_endpoints_aux]
  | cons e rest =>
    cases tlsConfig with
    | none =>
      refine ⟨Or.inr (Or.inr ?_), fun _ h => absurd rfl h⟩
      rw [New_cons, newClient_of_dial_err oracle { Endpoints := e :: rest, TLS := none } log
        none errNoTLSConfig log rfl]
    | some t =>
      obtain ⟨conn, out, hloop⟩ := loop_err_none oracle (tlsOpts t) (e :: rest) log
      have hnew : (New oracle { Endpoints := e :: rest, TLS := some t } log).1.2 = none := by
        rw [New_cons, newClient_of_dial oracle _ log conn out
          (by rw [dialEndpoints_tls]; exact hloop)]
      exact ⟨Or.inl hnew, fun _ _ => hnew⟩

end client
